import Mathlib

/-!
Shallow embedding of the shopbrands-back order/payment/cart core
(`src/modules/cart/cart.service.ts`, `src/modules/orders/orders.service.ts`,
`src/modules/payments/payments.service.ts` and the SQL query modules they
use).  Database tables are lists of rows; each `db.query` of the source is
mirrored by a read or a row-level update of the `DB` record.  Monetary
values and SQL DECIMAL / JS number arithmetic are modelled over `ℚ`;
JavaScript's special numeric values (needed for the `Number.isFinite`
guards) are modelled by `JSNum`.  Fallible service calls return the new
database state together with `Except String α`, mirroring the fact that the
source runs without transactions: writes performed before a throw persist.
-/

namespace Shop

/-- A JavaScript number: NaN, the two infinities, or a finite value. -/
inductive JSNum where
  | nan
  | posInf
  | negInf
  | fin (q : ℚ)
deriving DecidableEq

/-- `Number.isFinite`. -/
def JSNum.isFinite : JSNum → Bool
  | .fin _ => true
  | _ => false

/-- JavaScript `<=` on numbers: any comparison involving NaN is false. -/
def JSNum.le : JSNum → JSNum → Bool
  | .nan, _ => false
  | _, .nan => false
  | .negInf, _ => true
  | _, .negInf => false
  | _, .posInf => true
  | .posInf, _ => false
  | .fin a, .fin b => decide (a ≤ b)

/-- `Number(x.toFixed(2))`: round to two decimal places (ties away from the
floor, as JS `Math.round`-style half-up does on the exact values used here). -/
def toFixed2 (q : ℚ) : ℚ := (round (q * 100) : ℚ) / 100

/-- JavaScript truthiness of a nullable string (`null` and `""` are falsy). -/
def truthyStr : Option String → Bool
  | none => false
  | some s => !(s == "")

/-- Row of the `products` table (fields used by the cart/order services). -/
structure Product where
  id : Nat
  name : String
  price : ℚ
  stock : Option ℚ
deriving DecidableEq

/-- Row of the `cart_items` table (cart reference kept on the enclosing `Cart`). -/
structure CartItem where
  id : Nat
  product_id : Nat
  quantity : ℚ
deriving DecidableEq

/-- Row of the `cart` table together with its `cart_items` rows. -/
structure Cart where
  user_id : Nat
  items : List CartItem
deriving DecidableEq

/-- Row of the `orders` table. -/
structure Order where
  id : Nat
  user_id : Nat
  address_id : Nat
  status : String
  total : ℚ
  total_paid : Option ℚ
  discount_amount : Option ℚ
  promotion_code : Option String
deriving DecidableEq

/-- Row of the `order_items` table. -/
structure OrderItem where
  order_id : Nat
  product_id : Nat
  quantity : ℚ
  price : ℚ
deriving DecidableEq

/-- Row of the `payments` table. -/
structure Payment where
  id : Nat
  order_id : Nat
  transaction_id : Option String
  amount : ℚ
  status : String
  method : String
  discount_amount : ℚ
  promotion_code : Option String
deriving DecidableEq

/-- Row of the `returns` table. -/
structure ReturnRequest where
  id : Nat
  order_id : Nat
  user_id : Nat
  reason : String
  total_amount : Option ℚ
  status : String
deriving DecidableEq

/-- Row of the `users` table (fields read by the order services). -/
structure User where
  id : Nat
  email : String
  first_name : String
  last_name : String
deriving DecidableEq

/-- The relational store, plus an auto-increment counter for inserted ids. -/
structure DB where
  products : List Product
  carts : List Cart
  orders : List Order
  orderItems : List OrderItem
  payments : List Payment
  returns : List ReturnRequest
  users : List User
  nextId : Nat
deriving DecidableEq

/-- `SELECT ... FROM products WHERE id = ?` (first row). -/
def DB.findProduct (db : DB) (pid : Nat) : Option Product :=
  db.products.find? (fun p => p.id == pid)

/-- `SELECT ... FROM orders WHERE id = ?` (first row). -/
def DB.findOrder (db : DB) (oid : Nat) : Option Order :=
  db.orders.find? (fun o => o.id == oid)

/-- `SELECT ... FROM users WHERE id = ?` (first row). -/
def DB.findUser (db : DB) (uid : Nat) : Option User :=
  db.users.find? (fun u => u.id == uid)

/-- `GET_RETURN_BY_ID` (first row). -/
def DB.findReturn (db : DB) (rid : Nat) : Option ReturnRequest :=
  db.returns.find? (fun r => r.id == rid)

/-- The `cart_items` rows of a user's cart (empty when the cart does not exist). -/
def DB.cartItemsOf (db : DB) (userId : Nat) : List CartItem :=
  match db.carts.find? (fun c => c.user_id == userId) with
  | some c => c.items
  | none => []

/-- `getOrCreateCartId`: `GET_CART_BY_USER`, inserting an empty cart row
(`CREATE_CART`) when the user has none. -/
def DB.ensureCart (db : DB) (userId : Nat) : DB :=
  if (db.carts.find? (fun c => c.user_id == userId)).isSome then db
  else { db with carts := db.carts ++ [{ user_id := userId, items := [] }] }

/-- `UPDATE orders SET status = ? WHERE id = ?` (`UPDATE_ORDER_STATUS`). -/
def DB.setOrderStatus (db : DB) (oid : Nat) (st : String) : DB :=
  { db with orders := db.orders.map (fun o => if o.id = oid then { o with status := st } else o) }

/-- `UPDATE orders SET total_paid = ?, discount_amount = ?, promotion_code = ? WHERE id = ?`
(`UPDATE_ORDER_TOTALS`). -/
def DB.setOrderTotals (db : DB) (oid : Nat) (tp dc : ℚ) (promo : Option String) : DB :=
  { db with orders := db.orders.map (fun o =>
      if o.id = oid then { o with total_paid := some tp, discount_amount := some dc, promotion_code := promo } else o) }

/-- `UPDATE returns SET status = ? WHERE id = ?` (`UPDATE_RETURN_STATUS`). -/
def DB.setReturnStatus (db : DB) (rid : Nat) (st : String) : DB :=
  { db with returns := db.returns.map (fun r => if r.id = rid then { r with status := st } else r) }

/-- `UPDATE products SET stock = stock + ? WHERE id = ?` (SQL `NULL + x` stays `NULL`). -/
def DB.restock (db : DB) (pid : Nat) (q : ℚ) : DB :=
  { db with products := db.products.map (fun p =>
      if p.id = pid then { p with stock := p.stock.map (fun s => s + q) } else p) }

/-- `UPDATE payments SET status = "refunded" WHERE id = ?`. -/
def DB.markPaymentRefunded (db : DB) (payId : Nat) : DB :=
  { db with payments := db.payments.map (fun p => if p.id = payId then { p with status := "refunded" } else p) }

/-- `INSERT INTO payments ...` (`INSERT_PAYMENT_RECORD`). -/
def DB.insertPayment (db : DB) (oid : Nat) (tid : Option String) (amount : ℚ)
    (st method : String) (dc : ℚ) (promo : Option String) : DB :=
  { db with
    payments := db.payments ++
      [{ id := db.nextId, order_id := oid, transaction_id := tid, amount := amount,
         status := st, method := method, discount_amount := dc, promotion_code := promo }],
    nextId := db.nextId + 1 }

/-- `DELETE FROM cart WHERE user_id = ?` (`DELETE_CART_BY_USER`, items cascade). -/
def DB.deleteCartOf (db : DB) (userId : Nat) : DB :=
  { db with carts := db.carts.filter (fun c => !(c.user_id == userId)) }

/-- `UPDATE cart_items SET quantity = ? WHERE id = ? AND cart_id = ?` (`UPDATE_CART_ITEM`). -/
def DB.updateCartItem (db : DB) (userId itemId : Nat) (q : ℚ) : DB :=
  { db with carts := db.carts.map (fun c =>
      if c.user_id = userId then
        { c with items := c.items.map (fun it => if it.id = itemId then { it with quantity := q } else it) }
      else c) }

/-- `INSERT INTO cart_items (cart_id, product_id, quantity)` (`ADD_CART_ITEM`). -/
def DB.addCartItem (db : DB) (userId productId : Nat) (q : ℚ) : DB :=
  { db with
    carts := db.carts.map (fun c =>
      if c.user_id = userId then
        { c with items := c.items ++ [{ id := db.nextId, product_id := productId, quantity := q }] }
      else c),
    nextId := db.nextId + 1 }

/-- `SELECT ... FROM payments WHERE order_id = ? AND status = "completed"`. -/
def DB.completedPayments (db : DB) (oid : Nat) : List Payment :=
  db.payments.filter (fun p => p.order_id == oid && p.status == "completed")

/-- `reconstructOriginalTotal` of `orders.service.ts`: recover the
pre-discount display total when the stored total equals the paid total
within the `0.0001` tolerance. -/
def reconstructOriginalTotal (dbTotal : ℚ) (dbTotalPaid dbDiscount : Option ℚ) : ℚ :=
  match dbTotalPaid, dbDiscount with
  | some tp, some dc =>
      if |dbTotal - tp| < 1 / 10000 then toFixed2 (tp + dc) else dbTotal
  | _, _ => dbTotal

/-! ## Cart service (`cart.service.ts`) -/

/-- Error message of the `addItem` input guard. -/
def msgBadAddInput : String := "product_id y quantity válidos son requeridos"

/-- Error message of the stock checks in `addItem` / `updateItem`. -/
def msgNoStock : String := "Stock insuficiente para la cantidad solicitada"

/-- `CartService.addItem(userId, productId, quantity)`.  The result pairs the
database after the call with the outcome; on a throw the writes already
performed persist (the source runs no transaction). -/
def addItem (db : DB) (userId productId : Nat) (quantity : JSNum) :
    DB × Except String Unit :=
  if productId = 0 || !quantity.isFinite || quantity.le (.fin 0) then
    (db, .error msgBadAddInput)
  else
    match quantity with
    | .fin q =>
      let db1 := db.ensureCart userId
      let found := (db1.cartItemsOf userId).find? (fun it => it.product_id == productId)
      match db1.findProduct productId with
      | none => (db1, .error "Producto no encontrado")
      | some product =>
        match found with
        | some existing =>
          let newQuantity := existing.quantity + q
          match product.stock with
          | some stock =>
            if stock < newQuantity then (db1, .error msgNoStock)
            else (db1.updateCartItem userId existing.id newQuantity, .ok ())
          | none => (db1.updateCartItem userId existing.id newQuantity, .ok ())
        | none =>
          match product.stock with
          | some stock =>
            if stock < q then (db1, .error msgNoStock)
            else (db1.addCartItem userId productId q, .ok ())
          | none => (db1.addCartItem userId productId q, .ok ())
    | _ => (db, .error msgBadAddInput)

/-- `CartService.updateItem(userId, itemId, quantity)`: absolute replacement
of a line quantity, bounded by current stock. -/
def updateItem (db : DB) (userId itemId : Nat) (quantity : JSNum) :
    DB × Except String Unit :=
  if !quantity.isFinite || quantity.le (.fin 0) then
    (db, .error "Quantity válido es requerido y debe ser mayor que 0")
  else
    match quantity with
    | .fin q =>
      let db1 := db.ensureCart userId
      match (db1.cartItemsOf userId).find? (fun it => it.id == itemId) with
      | none => (db1, .error "Item no encontrado en el carrito")
      | some item =>
        match db1.findProduct item.product_id with
        | none => (db1, .error "Producto no encontrado")
        | some product =>
          match product.stock with
          | some stock =>
            if stock < q then (db1, .error msgNoStock)
            else (db1.updateCartItem userId itemId q, .ok ())
          | none => (db1.updateCartItem userId itemId q, .ok ())
    | _ => (db, .error "Quantity válido es requerido y debe ser mayor que 0")

/-- One line of the cart view built by `CartService.getCart` (the
`GET_CART_ITEMS_BY_CART` join with `products`). -/
structure CartLine where
  id : Nat
  product_id : Nat
  product_name : String
  price : ℚ
  quantity : ℚ
deriving DecidableEq

/-- The joined cart lines of `getCart` (an inner join: items whose product
row is missing do not appear). -/
def DB.getCartLines (db : DB) (userId : Nat) : List CartLine :=
  (db.cartItemsOf userId).filterMap (fun it =>
    (db.findProduct it.product_id).map (fun p =>
      { id := it.id, product_id := it.product_id, product_name := p.name,
        price := p.price, quantity := it.quantity }))

/-- The per-line revalidation loop of `CartService.checkout`: re-reads each
product's live price and stock, rejects lines whose quantity exceeds a
non-null stock, and collects `(product_id, quantity, live price)` snapshots
together with the accumulated total. -/
def checkoutLoop (db : DB) : List CartLine → Except String (List (Nat × ℚ × ℚ) × ℚ)
  | [] => .ok ([], 0)
  | it :: rest =>
    match db.findProduct it.product_id with
    | none => .error ("Producto " ++ toString it.product_id ++ " no encontrado")
    | some p =>
      match p.stock with
      | some stock =>
        if stock < it.quantity then
          .error ("Stock insuficiente para producto " ++ it.product_name)
        else
          (checkoutLoop db rest).map (fun r => ((it.product_id, it.quantity, p.price) :: r.1, p.price * it.quantity + r.2))
      | none =>
        (checkoutLoop db rest).map (fun r => ((it.product_id, it.quantity, p.price) :: r.1, p.price * it.quantity + r.2))

/-- `OrdersService.createOrder`: insert the order row (status `pending`)
and one `order_items` row per snapshot line; returns the new order id. -/
def createOrder (db : DB) (userId addressId : Nat) (items : List (Nat × ℚ × ℚ)) (total : ℚ) :
    DB × Nat :=
  let oid := db.nextId
  ({ db with
      orders := db.orders ++
        [{ id := oid, user_id := userId, address_id := addressId, status := "pending",
           total := total, total_paid := none, discount_amount := none, promotion_code := none }],
      orderItems := db.orderItems ++ items.map (fun i =>
        { order_id := oid, product_id := i.1, quantity := i.2.1, price := i.2.2 }),
      nextId := db.nextId + 1 },
   oid)

/-! ## Payments service (`payments.service.ts`) -/

/-- The provider-hosted session returned by `stripe.checkout.sessions.create`
(the fields the services observe). -/
structure StripeSession where
  orderId : Nat
  amount_cents : ℤ
  url : String
deriving DecidableEq

/-- `PaymentsService.createCheckoutSession(orderId, frontendUrl)`: loads the
order and requests a provider session; no database write. -/
def createCheckoutSession (db : DB) (orderId : Nat) (frontendUrl : String) :
    DB × Except String StripeSession :=
  match db.findOrder orderId with
  | none => (db, .error "Pedido no encontrado")
  | some order =>
      (db, .ok { orderId := order.id,
                 amount_cents := round (order.total * 100),
                 url := frontendUrl ++ "/success" })

/-- `CartService.checkout(userId, addressId, frontendUrl)`. -/
def checkout (db : DB) (userId addressId : Nat) (frontendUrl : Option String) :
    DB × Except String (Nat × String) :=
  if addressId = 0 then (db, .error "addressId es requerido para el checkout")
  else
    match frontendUrl with
    | none => (db, .error "frontendUrl es requerido")
    | some url =>
      let db1 := db.ensureCart userId
      let lines := db1.getCartLines userId
      if lines.isEmpty then (db1, .error "El carrito está vacío")
      else
        match checkoutLoop db1 lines with
        | .error e => (db1, .error e)
        | .ok r =>
          let total := toFixed2 r.2
          let created := createOrder db1 userId addressId r.1 total
          match createCheckoutSession created.1 created.2 url with
          | (db3, .error e) => (db3, .error e)
          | (db3, .ok session) => (db3, .ok (created.2, session.url))

/-- The fields of a provider webhook event the handler reads (metadata
orderId, payment intent, captured amount and discount in cents, resolved
promotion code). -/
structure StripeEvent where
  type : String
  orderId : Option Nat
  payment_intent : Option String
  amount_total : Option ℤ
  amount_discount : Option ℤ
  promotion_code : Option String
deriving DecidableEq

/-- `PaymentsService.handleWebhook(event)`: on `checkout.session.completed`,
set the order `completed`, insert a `completed` payment row, overwrite the
order totals, delete the buyer's cart, then load the order for invoicing
(throwing if it is absent); every other event type is ignored. -/
def handleWebhook (db : DB) (e : StripeEvent) : DB × Except String Unit :=
  if e.type = "checkout.session.completed" then
    match e.orderId with
    | none => (db, .error "OrderId no encontrado en metadata")
    | some orderId =>
      let totalPaid := toFixed2 ((e.amount_total.getD 0 : ℚ) / 100)
      let discountAmount :=
        match e.amount_discount with
        | some c => toFixed2 ((c : ℚ) / 100)
        | none => 0
      let db1 := db.setOrderStatus orderId "completed"
      let db2 := db1.insertPayment orderId e.payment_intent totalPaid "completed" "card"
        discountAmount e.promotion_code
      let db3 := db2.setOrderTotals orderId totalPaid discountAmount e.promotion_code
      let db4 :=
        match db3.findOrder orderId with
        | some o => db3.deleteCartOf o.user_id
        | none => db3
      match db4.findOrder orderId with
      | some _ => (db4, .ok ())
      | none => (db4, .error "Pedido no encontrado")
  else (db, .ok ())

/-! ## Orders service (`orders.service.ts`) -/

/-- The refund loop shared by `updateOrderStatus` (status `returned`) and
`cancelOrder`: for each snapshot payment with a truthy transaction id,
attempt the provider refund (`refundOk` tells whether the provider call
succeeds); on success mark the row `refunded` and accumulate its amount; a
provider failure is caught and skipped. -/
def refundLoop (refundOk : String → Bool) :
    List Payment → DB → ℚ → DB × ℚ
  | [], db, acc => (db, acc)
  | p :: rest, db, acc =>
    match p.transaction_id with
    | some tid =>
      if tid = "" then refundLoop refundOk rest db acc
      else if refundOk tid then
        refundLoop refundOk rest (db.markPaymentRefunded p.id) (acc + p.amount)
      else refundLoop refundOk rest db acc
    | none => refundLoop refundOk rest db acc

/-- The restock loop of `cancelOrder`: add each order item's quantity back
onto its product's stock. -/
def restockLoop : List OrderItem → DB → DB
  | [], db => db
  | it :: rest, db => restockLoop rest (db.restock it.product_id it.quantity)

/-- Statuses in which `cancelOrder` refuses to cancel. -/
def forbiddenCancel : List String :=
  ["shipped", "completed", "returned", "cancelled", "awaiting_return"]

/-- `OrdersService.cancelOrder(orderId, userId)`: ownership check, status
guard, set status `cancelled`, restock every order item, refund every
completed payment with a truthy transaction id, return the refunded sum
(the user lookup and cancellation email mutate nothing). -/
def cancelOrder (refundOk : String → Bool) (db : DB) (orderId userId : Nat) :
    DB × Except String ℚ :=
  match db.orders.find? (fun o => o.id == orderId && o.user_id == userId) with
  | none => (db, .error "Pedido no encontrado o no pertenece al usuario")
  | some order =>
    if order.status ∈ forbiddenCancel then
      (db, .error "No es posible cancelar este pedido en su estado actual")
    else
      let db1 := db.setOrderStatus orderId "cancelled"
      let items := db1.orderItems.filter (fun it => it.order_id == orderId)
      let db2 := restockLoop items db1
      let completed := db2.completedPayments orderId
      let refunded := refundLoop refundOk completed db2 0
      (refunded.1, .ok refunded.2)

/-- The store state reached by `cancelOrder` after the status update and the
restock loop, before the refund loop (a naming convenience for proofs). -/
def cancelRest (db : DB) (orderId : Nat) : DB :=
  restockLoop (db.orderItems.filter (fun it => it.order_id == orderId))
    (db.setOrderStatus orderId "cancelled")

/-- `OrdersService.updateOrderStatus(orderId, status)`: unconditional status
update; `shipped`/`delivered` only send emails; `returned` additionally
refunds every completed payment of the order (throwing only when the order
exists but its user row is missing). -/
def updateOrderStatus (refundOk : String → Bool) (db : DB) (orderId : Nat) (status : String) :
    DB × Except String Unit :=
  let db1 := db.setOrderStatus orderId status
  if status = "returned" then
    match db1.findOrder orderId with
    | none => (db1, .ok ())
    | some o =>
      match db1.findUser o.user_id with
      | none => (db1, .error "Usuario no encontrado")
      | some _ =>
        let completed := db1.completedPayments orderId
        let refunded := refundLoop refundOk completed db1 0
        (refunded.1, .ok ())
  else (db1, .ok ())

/-- `OrdersService.updateReturnStatus(returnId, status)`: load the return
request and its user (throwing before any write when either is missing),
update the request's status, and on `approved` move the order to
`awaiting_return`; emails mutate nothing. -/
def updateReturnStatus (db : DB) (returnId : Nat) (status : String) :
    DB × Except String Unit :=
  match db.findReturn returnId with
  | none => (db, .error "Devolución no encontrada")
  | some ret =>
    match db.findUser ret.user_id with
    | none => (db, .error "Usuario no encontrado")
    | some _ =>
      let db1 := db.setReturnStatus returnId status
      if status = "approved" then
        (db1.setOrderStatus ret.order_id "awaiting_return", .ok ())
      else (db1, .ok ())

/-- Whether the `try` body around one provider refund runs to completion:
the payment has a truthy transaction id and the provider call succeeds. -/
def refundAttemptOk (f : String → Bool) (p : Payment) : Bool :=
  match p.transaction_id with
  | some tid => !(tid == "") && f tid
  | none => false

/-! ## Concrete stores used by witnesses and counterexamples -/

/-- One product with stock 10, one user, a cart holding quantity 2 of it. -/
def exDB : DB :=
  { products := [{ id := 5, name := "Camiseta", price := 10, stock := some 10 }],
    carts := [{ user_id := 1, items := [{ id := 20, product_id := 5, quantity := 2 }] }],
    orders := [], orderItems := [], payments := [], returns := [],
    users := [{ id := 1, email := "a@b.c", first_name := "A", last_name := "B" }],
    nextId := 30 }

/-- `exDB` with the product's stock NULL. -/
def nsDB : DB :=
  { exDB with products := [{ id := 5, name := "Camiseta", price := 10, stock := none }] }

/-- A pending order of total 50 awaiting payment, owned by user 1. -/
def wOrder : Order :=
  { id := 1, user_id := 1, address_id := 3, status := "pending", total := 50,
    total_paid := none, discount_amount := none, promotion_code := none }

/-- Store holding `wOrder` and the buyer's cart. -/
def wDB : DB := { exDB with orders := [wOrder] }

/-- A `checkout.session.completed` provider event for order 1, 5000 cents. -/
def wEvent : StripeEvent :=
  { type := "checkout.session.completed", orderId := some 1,
    payment_intent := some "pi_1", amount_total := some 5000,
    amount_discount := none, promotion_code := none }

/-- The `processing`, paid order of the spec's cancellation scenario. -/
def cOrder : Order :=
  { id := 1, user_id := 2, address_id := 3, status := "processing", total := 50,
    total_paid := some 50, discount_amount := some 0, promotion_code := none }

/-- The completed Payment of 50 backing `cOrder`. -/
def cPay : Payment :=
  { id := 9, order_id := 1, transaction_id := some "pi_9", amount := 50,
    status := "completed", method := "card", discount_amount := 0, promotion_code := none }

/-- The spec's cancellation scenario: order 1 is `processing`, paid by one
completed Payment of 50, with two order items (quantities 2 and 1). -/
def cDB : DB :=
  { products := [{ id := 5, name := "A", price := 10, stock := some 3 },
                 { id := 6, name := "B", price := 20, stock := some 0 }],
    carts := [],
    orders := [cOrder],
    orderItems := [{ order_id := 1, product_id := 5, quantity := 2, price := 10 },
                   { order_id := 1, product_id := 6, quantity := 1, price := 20 }],
    payments := [cPay],
    returns := [],
    users := [{ id := 2, email := "u@x.y", first_name := "U", last_name := "V" }],
    nextId := 40 }

/-- The `shipped` variant of `cOrder` used by the return scenario. -/
def rOrder : Order := { cOrder with status := "shipped" }

/-- The pending return request of the return scenario. -/
def rRet : ReturnRequest :=
  { id := 7, order_id := 1, user_id := 2, reason := "talla",
    total_amount := some 50, status := "pending" }

/-- The spec's return scenario: the paid order 1 is `shipped` and has a
pending return request. -/
def rDB : DB := { cDB with orders := [rOrder], returns := [rRet] }

/-- Total quantity of the given order items that restock a given product. -/
def sumQty (items : List OrderItem) (pid : Nat) : ℚ :=
  ((items.filter (fun it => it.product_id == pid)).map (fun it => it.quantity)).sum

/-! ## Frame and unfolding lemmas -/

theorem ensureCart_of_cart_exists (db : DB) (u : Nat)
    (h : (db.carts.find? (fun c => c.user_id == u)).isSome = true) :
    db.ensureCart u = db := by
  unfold DB.ensureCart
  simp [h]

theorem ensureCart_cartItemsOf (db : DB) (u v : Nat) :
    (db.ensureCart u).cartItemsOf v = db.cartItemsOf v := by
  by_cases h : (db.carts.find? (fun c => c.user_id == u)).isSome = true
  · rw [ensureCart_of_cart_exists db u h]
  · unfold DB.ensureCart
    rw [if_neg h]
    unfold DB.cartItemsOf
    simp only [List.find?_append]
    rcases hf : db.carts.find? (fun c => c.user_id == v) with _ | c
    · by_cases hv : v = u
      · subst hv
        simp [hf, List.find?_cons]
      · have hne : (u == v) = false := by simp [Ne.symm hv]
        simp [hf, List.find?_cons, hne]
    · simp [hf]

theorem ensureCart_mem_carts (db : DB) (u : Nat) {c : Cart} (hc : c ∈ db.carts) :
    c ∈ (db.ensureCart u).carts := by
  unfold DB.ensureCart
  split
  · exact hc
  · exact List.mem_append_left _ hc

theorem cartItemsOf_nonempty_exists (db : DB) (u : Nat)
    (h : db.cartItemsOf u ≠ []) :
    (db.carts.find? (fun c => c.user_id == u)).isSome = true := by
  unfold DB.cartItemsOf at h
  rcases hf : db.carts.find? (fun c => c.user_id == u) with _ | c
  · rw [hf] at h
    exact absurd rfl h
  · simp [hf]

/-- `find?` commutes with a `map` whose function preserves the predicate. -/
theorem find?_map_pred_inv {α : Type} (g : α → α) (p : α → Bool)
    (hp : ∀ a, p (g a) = p a) (l : List α) :
    (l.map g).find? p = (l.find? p).map g := by
  induction l with
  | nil => rfl
  | cons a l ih =>
    simp only [List.map_cons]
    by_cases h : p a = true
    · rw [List.find?_cons_of_pos _ (by rw [hp]; exact h), List.find?_cons_of_pos _ h]
      rfl
    · rw [List.find?_cons_of_neg _ (by rw [hp]; exact h), List.find?_cons_of_neg _ h, ih]

theorem updateCartItem_cartItemsOf (db : DB) (u itemId : Nat) (q : ℚ) (v : Nat) :
    (db.updateCartItem u itemId q).cartItemsOf v
      = if v = u then
          (db.cartItemsOf v).map (fun i => if i.id = itemId then { i with quantity := q } else i)
        else db.cartItemsOf v := by
  unfold DB.updateCartItem DB.cartItemsOf
  rw [show (({ db with carts := db.carts.map (fun c =>
      if c.user_id = u then
        { c with items := c.items.map (fun it => if it.id = itemId then { it with quantity := q } else it) }
      else c) } : DB)).carts = db.carts.map (fun c =>
      if c.user_id = u then
        { c with items := c.items.map (fun it => if it.id = itemId then { it with quantity := q } else it) }
      else c) from rfl,
    find?_map_pred_inv _ _ (fun c => by by_cases h : c.user_id = u <;> simp [h])]
  rcases hf : db.carts.find? (fun c => c.user_id == v) with _ | c
  · simp [hf]
  · have hcv : c.user_id = v := by simpa using List.find?_some hf
    by_cases hvu : v = u
    · subst hvu
      simp [hf, hcv]
    · simp [hf, hcv, hvu]

theorem addCartItem_cartItemsOf (db : DB) (u productId : Nat) (q : ℚ) (v : Nat)
    (hex : (db.carts.find? (fun c => c.user_id == u)).isSome = true) :
    (db.addCartItem u productId q).cartItemsOf v
      = if v = u then
          db.cartItemsOf v ++ [{ id := db.nextId, product_id := productId, quantity := q }]
        else db.cartItemsOf v := by
  unfold DB.addCartItem DB.cartItemsOf
  rw [show (({ db with
      carts := db.carts.map (fun c =>
        if c.user_id = u then
          { c with items := c.items ++ [{ id := db.nextId, product_id := productId, quantity := q }] }
        else c),
      nextId := db.nextId + 1 } : DB)).carts = db.carts.map (fun c =>
        if c.user_id = u then
          { c with items := c.items ++ [{ id := db.nextId, product_id := productId, quantity := q }] }
        else c) from rfl,
    find?_map_pred_inv _ _ (fun c => by by_cases h : c.user_id = u <;> simp [h])]
  rcases hf : db.carts.find? (fun c => c.user_id == v) with _ | c
  · by_cases hvu : v = u
    · subst hvu
      rw [hf] at hex
      simp at hex
    · simp [hf, hvu]
  · have hcv : c.user_id = v := by simpa using List.find?_some hf
    by_cases hvu : v = u
    · subst hvu
      simp [hf, hcv]
    · simp [hf, hcv, hvu]

theorem setOrderStatus_findOrder (db : DB) (oid : Nat) (st : String) (v : Nat) :
    (db.setOrderStatus oid st).findOrder v
      = (db.findOrder v).map (fun o => if o.id = oid then { o with status := st } else o) := by
  unfold DB.setOrderStatus DB.findOrder
  exact find?_map_pred_inv _ _ (fun o => by by_cases h : o.id = oid <;> simp [h]) _

theorem restock_findProduct (db : DB) (pid' : Nat) (q : ℚ) (pid : Nat) :
    (db.restock pid' q).findProduct pid
      = (db.findProduct pid).map (fun p =>
          if p.id = pid' then { p with stock := p.stock.map (fun s => s + q) } else p) := by
  unfold DB.restock DB.findProduct
  exact find?_map_pred_inv _ _ (fun p => by by_cases h : p.id = pid' <;> simp [h]) _

theorem restockLoop_payments : ∀ (items : List OrderItem) (db : DB),
    (restockLoop items db).payments = db.payments := by
  intro items
  induction items with
  | nil => intro db; rfl
  | cons it rest ih => intro db; exact ih _

theorem restockLoop_orders : ∀ (items : List OrderItem) (db : DB),
    (restockLoop items db).orders = db.orders := by
  intro items
  induction items with
  | nil => intro db; rfl
  | cons it rest ih => intro db; exact ih _

theorem restockLoop_findProduct : ∀ (items : List OrderItem) (db : DB) (pid : Nat),
    (restockLoop items db).findProduct pid
      = (db.findProduct pid).map (fun p =>
          { p with stock := p.stock.map (fun s => s + sumQty items pid) }) := by
  intro items
  induction items with
  | nil =>
    intro db pid
    rcases h : db.findProduct pid with _ | p
    · simp [restockLoop, h]
    · obtain ⟨a, b, c, st⟩ := p
      rcases st with _ | s <;> simp [restockLoop, h, sumQty]
  | cons it rest ih =>
    intro db pid
    show (restockLoop rest (db.restock it.product_id it.quantity)).findProduct pid = _
    rw [ih, restock_findProduct]
    rcases h : db.findProduct pid with _ | p
    · simp
    · have hpid : p.id = pid := by simpa using List.find?_some h
      obtain ⟨a, b, c, st⟩ := p
      simp only at hpid
      by_cases hm : it.product_id = pid
      · have hif : a = it.product_id := by rw [hpid, hm]
        rcases st with _ | s <;>
          simp [hif, sumQty, List.filter_cons, hm, add_assoc]
      · have hif : ¬ a = it.product_id := by
          rw [hpid]
          exact fun hh => hm hh.symm
        rcases st with _ | s <;>
          simp [hif, sumQty, List.filter_cons, hm]

theorem refundLoop_cons (f : String → Bool) (p : Payment) (rest : List Payment)
    (db : DB) (acc : ℚ) :
    refundLoop f (p :: rest) db acc
      = (match p.transaction_id with
         | some tid =>
           if tid = "" then refundLoop f rest db acc
           else if f tid = true then
             refundLoop f rest (db.markPaymentRefunded p.id) (acc + p.amount)
           else refundLoop f rest db acc
         | none => refundLoop f rest db acc) := rfl

theorem refundLoop_cons_none (f : String → Bool) (p : Payment) (rest : List Payment)
    (db : DB) (acc : ℚ) (hp : p.transaction_id = none) :
    refundLoop f (p :: rest) db acc = refundLoop f rest db acc := by
  rw [refundLoop_cons, hp]

theorem refundLoop_cons_skip (f : String → Bool) (p : Payment) (rest : List Payment)
    (db : DB) (acc : ℚ) (tid : String) (hp : p.transaction_id = some tid)
    (h : tid = "" ∨ f tid = false) :
    refundLoop f (p :: rest) db acc = refundLoop f rest db acc := by
  rw [refundLoop_cons, hp]
  rcases h with h | h
  · simp [h]
  · simp [h]

theorem refundLoop_cons_ok (f : String → Bool) (p : Payment) (rest : List Payment)
    (db : DB) (acc : ℚ) (tid : String) (hp : p.transaction_id = some tid)
    (h0 : ¬ tid = "") (hok : f tid = true) :
    refundLoop f (p :: rest) db acc
      = refundLoop f rest (db.markPaymentRefunded p.id) (acc + p.amount) := by
  rw [refundLoop_cons, hp]
  simp [h0, hok]

theorem refundAttemptOk_false_skip (f : String → Bool) (p : Payment) (rest : List Payment)
    (db : DB) (acc : ℚ) (hro : ¬ refundAttemptOk f p = true) :
    refundLoop f (p :: rest) db acc = refundLoop f rest db acc := by
  rcases hp : p.transaction_id with _ | tid
  · exact refundLoop_cons_none f p rest db acc hp
  · refine refundLoop_cons_skip f p rest db acc tid hp ?_
    unfold refundAttemptOk at hro
    rw [hp] at hro
    by_cases h0 : tid = ""
    · exact Or.inl h0
    · right
      rcases hft : f tid with _ | _
      · rfl
      · exact absurd (by simp [h0, hft]) hro

theorem refundAttemptOk_true_parts (f : String → Bool) (p : Payment)
    (hro : refundAttemptOk f p = true) :
    ∃ tid, p.transaction_id = some tid ∧ ¬ tid = "" ∧ f tid = true := by
  unfold refundAttemptOk at hro
  rcases hp : p.transaction_id with _ | tid
  · rw [hp] at hro
    exact absurd hro (by simp)
  · rw [hp] at hro
    refine ⟨tid, rfl, ?_, ?_⟩
    · intro hh
      rw [hh] at hro
      simp at hro
    · exact (Bool.and_eq_true_iff.mp hro).2

theorem refundLoop_orders (f : String → Bool) : ∀ (ps : List Payment) (db : DB) (acc : ℚ),
    ((refundLoop f ps db acc).1).orders = db.orders := by
  intro ps
  induction ps with
  | nil => intro db acc; rfl
  | cons p rest ih =>
    intro db acc
    by_cases hro : refundAttemptOk f p = true
    · obtain ⟨tid, hp, h0, hok⟩ := refundAttemptOk_true_parts f p hro
      rw [refundLoop_cons_ok f p rest db acc tid hp h0 hok]
      exact ih _ _
    · rw [refundAttemptOk_false_skip f p rest db acc hro]
      exact ih _ _

theorem refundLoop_products (f : String → Bool) : ∀ (ps : List Payment) (db : DB) (acc : ℚ),
    ((refundLoop f ps db acc).1).products = db.products := by
  intro ps
  induction ps with
  | nil => intro db acc; rfl
  | cons p rest ih =>
    intro db acc
    by_cases hro : refundAttemptOk f p = true
    · obtain ⟨tid, hp, h0, hok⟩ := refundAttemptOk_true_parts f p hro
      rw [refundLoop_cons_ok f p rest db acc tid hp h0 hok]
      exact ih _ _
    · rw [refundAttemptOk_false_skip f p rest db acc hro]
      exact ih _ _

theorem refundLoop_payments_eq (f : String → Bool) : ∀ (ps : List Payment) (db : DB) (acc : ℚ),
    ((refundLoop f ps db acc).1).payments
      = db.payments.map (fun q =>
          if q.id ∈ (ps.filter (refundAttemptOk f)).map (fun p => p.id) then
            { q with status := "refunded" } else q) := by
  intro ps
  induction ps with
  | nil =>
    intro db acc
    simp [refundLoop]
  | cons p rest ih =>
    intro db acc
    by_cases hro : refundAttemptOk f p = true
    · obtain ⟨tid, hp, h0, hok⟩ := refundAttemptOk_true_parts f p hro
      rw [refundLoop_cons_ok f p rest db acc tid hp h0 hok, ih,
        show (p :: rest).filter (refundAttemptOk f) = p :: rest.filter (refundAttemptOk f) from by
          simp [List.filter_cons, hro]]
      show (db.payments.map (fun q => if q.id = p.id then { q with status := "refunded" } else q)).map _ = _
      rw [List.map_map]
      apply List.map_congr_left
      intro a _
      by_cases ha : a.id = p.id
      · by_cases hm : a.id ∈ (rest.filter (refundAttemptOk f)).map (fun p => p.id) <;>
          simp [Function.comp, ha, hm]
      · by_cases hm : a.id ∈ (rest.filter (refundAttemptOk f)).map (fun p => p.id) <;>
          simp [Function.comp, ha, hm]
    · rw [refundAttemptOk_false_skip f p rest db acc hro, ih,
        show (p :: rest).filter (refundAttemptOk f) = rest.filter (refundAttemptOk f) from by
          simp [List.filter_cons, hro]]

theorem refundLoop_amount (f : String → Bool) : ∀ (ps : List Payment) (db : DB) (acc : ℚ),
    (refundLoop f ps db acc).2
      = acc + ((ps.filter (refundAttemptOk f)).map (fun p => p.amount)).sum := by
  intro ps
  induction ps with
  | nil =>
    intro db acc
    simp [refundLoop]
  | cons p rest ih =>
    intro db acc
    by_cases hro : refundAttemptOk f p = true
    · obtain ⟨tid, hp, h0, hok⟩ := refundAttemptOk_true_parts f p hro
      rw [refundLoop_cons_ok f p rest db acc tid hp h0 hok, ih,
        show (p :: rest).filter (refundAttemptOk f) = p :: rest.filter (refundAttemptOk f) from by
          simp [List.filter_cons, hro]]
      simp [add_assoc]
    · rw [refundAttemptOk_false_skip f p rest db acc hro, ih,
        show (p :: rest).filter (refundAttemptOk f) = rest.filter (refundAttemptOk f) from by
          simp [List.filter_cons, hro]]

/-- In a list of payments with pairwise-distinct ids, equal ids force equal rows. -/
theorem pairwise_payment_id_inj : ∀ {l : List Payment},
    l.Pairwise (fun a b => a.id ≠ b.id) →
    ∀ {p q : Payment}, p ∈ l → q ∈ l → p.id = q.id → p = q := by
  intro l
  induction l with
  | nil =>
    intro _ p q hp
    exact absurd hp (List.not_mem_nil p)
  | cons a l ih =>
    intro hpw p q hp hq he
    rcases List.mem_cons.mp hp with hpa | hpl
    · rcases List.mem_cons.mp hq with hqa | hql
      · rw [hpa, hqa]
      · subst hpa
        exact absurd he ((List.pairwise_cons.mp hpw).1 q hql)
    · rcases List.mem_cons.mp hq with hqa | hql
      · subst hqa
        exact absurd he.symm ((List.pairwise_cons.mp hpw).1 p hpl)
      · exact ih (List.pairwise_cons.mp hpw).2 hpl hql he

theorem ensureCart_orders (db : DB) (u : Nat) : (db.ensureCart u).orders = db.orders := by
  unfold DB.ensureCart
  split <;> rfl

theorem ensureCart_orderItems (db : DB) (u : Nat) :
    (db.ensureCart u).orderItems = db.orderItems := by
  unfold DB.ensureCart
  split <;> rfl

theorem ensureCart_findProduct (db : DB) (u pid : Nat) :
    (db.ensureCart u).findProduct pid = db.findProduct pid := by
  unfold DB.ensureCart
  split <;> rfl

theorem createCheckoutSession_fst (db : DB) (oid : Nat) (fu : String) :
    (createCheckoutSession db oid fu).1 = db := by
  unfold createCheckoutSession
  rcases h : db.findOrder oid with _ | o <;> simp [h]

theorem createCheckoutSession_ok_of_found (db : DB) (oid : Nat) (fu : String) (o : Order)
    (h : db.findOrder oid = some o) :
    (createCheckoutSession db oid fu).2
      = .ok { orderId := o.id, amount_cents := round (o.total * 100), url := fu ++ "/success" } := by
  unfold createCheckoutSession
  rw [h]

theorem createOrder_findOrder_some (db : DB) (u a : Nat) (items : List (Nat × ℚ × ℚ)) (total : ℚ) :
    ∃ o, ((createOrder db u a items total).1).findOrder (createOrder db u a items total).2 = some o := by
  unfold createOrder DB.findOrder
  simp only [List.find?_append]
  rcases h : db.orders.find? (fun o => o.id == db.nextId) with _ | o
  · refine ⟨⟨db.nextId, u, a, "pending", total, none, none, none⟩, ?_⟩
    rw [h]
    simp [List.find?_cons]
  · exact ⟨o, by rw [h]; rfl⟩

/-- The input guard of `addItem`: a falsy product id, a non-finite quantity
or a non-positive quantity throws before any cart state is touched. -/
theorem addItem_guard_fail (db : DB) (userId productId : Nat) (q : JSNum)
    (h : productId = 0 ∨ q.isFinite = false ∨ q.le (.fin 0) = true) :
    addItem db userId productId q = (db, .error msgBadAddInput) := by
  unfold addItem
  rcases h with h | h | h
  · rcases q with _ | _ | _ | v <;> simp_all [JSNum.isFinite, JSNum.le]
  · rcases q with _ | _ | _ | v <;> simp_all [JSNum.isFinite]
  · rcases q with _ | _ | _ | v <;> simp_all [JSNum.isFinite, JSNum.le]

/-- Case analysis on `checkout`: it either fails before the cart is read
(returning `db` itself), fails after the lazy cart creation (returning
`db.ensureCart u`), or succeeds and the final store is the one produced by
`createOrder` on the validated snapshot. -/
theorem checkout_shape (db : DB) (u addr : Nat) (fu : Option String) :
    ((checkout db u addr fu).1 = db ∧ (∃ e, (checkout db u addr fu).2 = .error e))
  ∨ ((checkout db u addr fu).1 = db.ensureCart u ∧ (∃ e, (checkout db u addr fu).2 = .error e))
  ∨ (∃ items total, (checkout db u addr fu).1 = (createOrder (db.ensureCart u) u addr items total).1
       ∧ (∃ v, (checkout db u addr fu).2 = .ok v)) := by
  unfold checkout
  by_cases ha : addr = 0
  · rw [if_pos ha]
    exact Or.inl ⟨rfl, _, rfl⟩
  · rw [if_neg ha]
    rcases fu with _ | url
    · exact Or.inl ⟨rfl, _, rfl⟩
    · simp only
      by_cases hemp : (((db.ensureCart u).getCartLines u)).isEmpty = true
      · rw [if_pos hemp]
        exact Or.inr (Or.inl ⟨rfl, _, rfl⟩)
      · rw [if_neg hemp]
        rcases hl : checkoutLoop (db.ensureCart u) ((db.ensureCart u).getCartLines u) with e | r
        · exact Or.inr (Or.inl ⟨rfl, _, rfl⟩)
        · simp only []
          obtain ⟨o, ho⟩ := createOrder_findOrder_some (db.ensureCart u) u addr r.1 (toFixed2 r.2)
          have hfst := createCheckoutSession_fst
            (createOrder (db.ensureCart u) u addr r.1 (toFixed2 r.2)).1
            (createOrder (db.ensureCart u) u addr r.1 (toFixed2 r.2)).2 url
          have hok := createCheckoutSession_ok_of_found
            (createOrder (db.ensureCart u) u addr r.1 (toFixed2 r.2)).1
            (createOrder (db.ensureCart u) u addr r.1 (toFixed2 r.2)).2 url o ho
          have hpair : createCheckoutSession
              (createOrder (db.ensureCart u) u addr r.1 (toFixed2 r.2)).1
              (createOrder (db.ensureCart u) u addr r.1 (toFixed2 r.2)).2 url
            = ((createOrder (db.ensureCart u) u addr r.1 (toFixed2 r.2)).1,
               .ok { orderId := o.id, amount_cents := round (o.total * 100),
                     url := url ++ "/success" }) :=
            Prod.ext hfst hok
          rw [hpair]
          exact Or.inr (Or.inr ⟨r.1, toFixed2 r.2, rfl, _, rfl⟩)

/-- Running `updateOrderStatus` to `returned` on an existing order whose user
row exists: the call succeeds, every completed payment whose refund attempt
runs to completion is marked `refunded` (others are untouched), and the
order's status is set to `returned`. -/
theorem updateOrderStatus_returned (f : String → Bool) (db : DB) (oid : Nat) (o : Order)
    (ho : db.findOrder oid = some o) (hu : (db.findUser o.user_id).isSome = true) :
    (updateOrderStatus f db oid "returned").2 = .ok ()
  ∧ (updateOrderStatus f db oid "returned").1.payments
      = db.payments.map (fun q =>
          if q.id ∈ ((db.completedPayments oid).filter (refundAttemptOk f)).map (fun p => p.id)
          then { q with status := "refunded" } else q)
  ∧ (updateOrderStatus f db oid "returned").1.orders
      = db.orders.map (fun x => if x.id = oid then { x with status := "returned" } else x) := by
  have hoid : o.id = oid := by
    have ho' : db.orders.find? (fun x => x.id == oid) = some o := ho
    simpa using List.find?_some ho'
  have h1 : (db.setOrderStatus oid "returned").findOrder oid
      = some { o with status := "returned" } := by
    rw [setOrderStatus_findOrder, ho]
    simp [hoid]
  obtain ⟨usr, husr⟩ := Option.isSome_iff_exists.mp hu
  have husr' : (db.setOrderStatus oid "returned").findUser
      ({ o with status := "returned" } : Order).user_id = some usr := husr
  unfold updateOrderStatus
  rw [if_pos rfl]
  simp only [h1, husr']
  refine ⟨by trivial, ?_, ?_⟩
  · rw [refundLoop_payments_eq]
    rfl
  · rw [refundLoop_orders]
    rfl

/-- Running `cancelOrder` past its guards: the result is the refund loop
applied after the restock loop on the `cancelled`-status store. -/
theorem cancelOrder_run (f : String → Bool) (db : DB) (orderId userId : Nat) (order : Order)
    (hord : db.orders.find? (fun o => o.id == orderId && o.user_id == userId) = some order)
    (hforb : ¬ order.status ∈ forbiddenCancel) :
    cancelOrder f db orderId userId
      = ((refundLoop f ((cancelRest db orderId).completedPayments orderId)
            (cancelRest db orderId) 0).1,
         .ok ((refundLoop f ((cancelRest db orderId).completedPayments orderId)
            (cancelRest db orderId) 0).2)) := by
  unfold cancelOrder cancelRest
  rw [hord]
  simp only [hforb, if_false]
  rfl

theorem cancelRest_completedPayments (db : DB) (orderId v : Nat) :
    (cancelRest db orderId).completedPayments v = db.completedPayments v := by
  unfold cancelRest DB.completedPayments
  rw [restockLoop_payments]
  rfl

theorem cancelRest_payments (db : DB) (orderId : Nat) :
    (cancelRest db orderId).payments = db.payments := by
  unfold cancelRest
  rw [restockLoop_payments]
  rfl

theorem cancelRest_orders (db : DB) (orderId : Nat) :
    (cancelRest db orderId).orders
      = db.orders.map (fun o => if o.id = orderId then { o with status := "cancelled" } else o) := by
  unfold cancelRest
  rw [restockLoop_orders]
  rfl

theorem cancelRest_findProduct (db : DB) (orderId pid : Nat) :
    (cancelRest db orderId).findProduct pid
      = (db.findProduct pid).map (fun p =>
          { p with stock := p.stock.map (fun s =>
              s + sumQty (db.orderItems.filter (fun it => it.order_id == orderId)) pid) }) := by
  unfold cancelRest
  rw [restockLoop_findProduct]
  rfl

/-! ## Claim theorems -/

/-- C3: displayed-total reconstruction.  When `total_paid` and
`discount_amount` are both non-null and `|total - total_paid| < 0.0001`, the
displayed total is `total_paid + discount_amount` rounded to two decimals;
in every other case the stored total is returned unchanged; in particular
`(80, 80, 20)` yields `100.00` and `(100, null, null)` yields `100`. -/
theorem reconstructOriginalTotal_spec :
    (∀ (total a b : ℚ), |total - a| < 1 / 10000 →
        reconstructOriginalTotal total (some a) (some b) = toFixed2 (a + b))
  ∧ (∀ (total a b : ℚ), ¬ |total - a| < 1 / 10000 →
        reconstructOriginalTotal total (some a) (some b) = total)
  ∧ (∀ (total : ℚ) (dc : Option ℚ), reconstructOriginalTotal total none dc = total)
  ∧ (∀ (total : ℚ) (tp : Option ℚ), reconstructOriginalTotal total tp none = total)
  ∧ reconstructOriginalTotal 80 (some 80) (some 20) = 100
  ∧ reconstructOriginalTotal 100 none none = 100 := by
  refine ⟨?_, ?_, ?_, ?_, ?_, ?_⟩
  · intro total a b h
    show (if |total - a| < 1 / 10000 then toFixed2 (a + b) else total) = toFixed2 (a + b)
    rw [if_pos h]
  · intro total a b h
    show (if |total - a| < 1 / 10000 then toFixed2 (a + b) else total) = total
    rw [if_neg h]
  · intro total dc
    rcases dc with _ | d <;> simp [reconstructOriginalTotal]
  · intro total tp
    rcases tp with _ | t <;> simp [reconstructOriginalTotal]
  · norm_num [reconstructOriginalTotal, toFixed2]
  · simp [reconstructOriginalTotal]

/-- Witness for C3 at the spec's concrete example `(80, 80, 20)`. -/
theorem reconstructOriginalTotal_spec_witness :
    |((80:ℚ)) - 80| < 1 / 10000
  ∧ reconstructOriginalTotal 80 (some 80) (some 20) = toFixed2 (80 + 20) :=
  ⟨by norm_num, reconstructOriginalTotal_spec.1 80 80 20 (by norm_num)⟩

/-- C9: `createCheckoutSession(orderId, frontendUrl)` has no side effect on any
Order or Payment record (the whole store is returned unchanged); for a missing
order it fails with the not-found error, also changing nothing; for an existing
order it returns the provider session for the order's total. -/
theorem createCheckoutSession_spec (db : DB) (oid : Nat) (fu : String) :
    (createCheckoutSession db oid fu).1 = db
  ∧ (db.findOrder oid = none →
      (createCheckoutSession db oid fu).2 = .error "Pedido no encontrado")
  ∧ (∀ o, db.findOrder oid = some o →
      (createCheckoutSession db oid fu).2
        = .ok { orderId := o.id, amount_cents := round (o.total * 100), url := fu ++ "/success" }) := by
  refine ⟨?_, ?_, ?_⟩
  · unfold createCheckoutSession
    rcases h : db.findOrder oid with _ | o <;> simp [h]
  · intro h
    unfold createCheckoutSession
    rw [h]
  · intro o h
    unfold createCheckoutSession
    rw [h]

/-- Witness for C9: a missing order id fails with the not-found error and the
store is untouched. -/
theorem createCheckoutSession_spec_witness :
    wDB.findOrder 99 = none
  ∧ (createCheckoutSession wDB 99 "https://shop.example").1 = wDB
  ∧ (createCheckoutSession wDB 99 "https://shop.example").2 = .error "Pedido no encontrado" := by
  have hnone : wDB.findOrder 99 = none := by
    norm_num [DB.findOrder, wDB, exDB, wOrder]
  have h := createCheckoutSession_spec wDB 99 "https://shop.example"
  exact ⟨hnone, h.1, h.2.1 hnone⟩

/-- C7 (counterexample): `addItem` accepts the non-integer quantity `1.5`
(the guard checks only finiteness and positivity), so the call does not fail
with the validation error the claim requires for every non-integer quantity. -/
theorem addItem_fractional_accepted :
    (addItem exDB 1 5 (JSNum.fin (3 / 2))).2 = Except.ok () := by
  norm_num [addItem, exDB, DB.ensureCart, DB.cartItemsOf, DB.findProduct, DB.updateCartItem,
    JSNum.isFinite, JSNum.le]

/-- C7 (amended): `addItem` fails with the validation error — before any cart
state is read or written, the store being returned unchanged — for every
quantity that is not finite (NaN and the infinities) or not positive (zero and
negatives); positive finite non-integers are not rejected by this guard. -/
theorem addItem_invalid_quantity (db : DB) (userId productId : Nat) (q : JSNum)
    (h : q.isFinite = false ∨ q.le (.fin 0) = true) :
    addItem db userId productId q = (db, .error msgBadAddInput) :=
  addItem_guard_fail db userId productId q (Or.inr h)

/-- Witness for C7's amended theorem at quantity NaN. -/
theorem addItem_invalid_quantity_witness :
    (JSNum.nan.isFinite = false ∨ JSNum.nan.le (.fin 0) = true)
  ∧ addItem exDB 1 5 JSNum.nan = (exDB, .error msgBadAddInput) :=
  ⟨Or.inl rfl, addItem_invalid_quantity exDB 1 5 JSNum.nan (Or.inl rfl)⟩

/-- C5: `checkout(userId, addressId, frontendUrl)` never modifies the cart
contents of any user (neither on success nor on failure) and never removes or
alters an existing cart row; and whenever it fails — empty cart, missing
address or frontend URL, missing product, or insufficient live stock — no
Order row and no OrderItem rows are created. -/
theorem checkout_frame (db : DB) (u addr : Nat) (fu : Option String) :
    (∀ v, (checkout db u addr fu).1.cartItemsOf v = db.cartItemsOf v)
  ∧ (∀ c ∈ db.carts, c ∈ (checkout db u addr fu).1.carts)
  ∧ (∀ e, (checkout db u addr fu).2 = .error e →
      (checkout db u addr fu).1.orders = db.orders
      ∧ (checkout db u addr fu).1.orderItems = db.orderItems) := by
  rcases checkout_shape db u addr fu with ⟨h1, _⟩ | ⟨h1, _⟩ | ⟨items, total, h1, v, h2⟩
  · rw [h1]
    exact ⟨fun v => rfl, fun c hc => hc, fun e _ => ⟨rfl, rfl⟩⟩
  · rw [h1]
    exact ⟨fun v => ensureCart_cartItemsOf db u v,
      fun c hc => ensureCart_mem_carts db u hc,
      fun e _ => ⟨ensureCart_orders db u, ensureCart_orderItems db u⟩⟩
  · refine ⟨?_, ?_, ?_⟩
    · intro w
      rw [h1]
      show (db.ensureCart u).cartItemsOf w = db.cartItemsOf w
      exact ensureCart_cartItemsOf db u w
    · intro c hc
      rw [h1]
      show c ∈ (db.ensureCart u).carts
      exact ensureCart_mem_carts db u hc
    · intro e he
      rw [h2] at he
      exact absurd he (by simp)

/-- Witness for C5: checking out an empty cart fails with the empty-cart
validation error, creating no order and leaving the cart contents intact. -/
theorem checkout_frame_witness :
    (checkout exDB 2 3 (some "https://shop.example")).2 = .error "El carrito está vacío"
  ∧ (checkout exDB 2 3 (some "https://shop.example")).1.cartItemsOf 1 = exDB.cartItemsOf 1
  ∧ (checkout exDB 2 3 (some "https://shop.example")).1.orders = exDB.orders
  ∧ (checkout exDB 2 3 (some "https://shop.example")).1.orderItems = exDB.orderItems := by
  have herr : (checkout exDB 2 3 (some "https://shop.example")).2 = .error "El carrito está vacío" := by
    norm_num [checkout, exDB, DB.ensureCart, DB.getCartLines, DB.cartItemsOf]
  have h := checkout_frame exDB 2 3 (some "https://shop.example")
  exact ⟨herr, h.1 1, (h.2.2 _ herr).1, (h.2.2 _ herr).2⟩

/-- C6: for a valid `addItem` call on a product already present in the cart,
the resulting line quantity is the prior quantity plus the added quantity;
when the combined quantity exceeds the product's stock the call fails with
the stock error and the store — hence the cart — is left exactly unchanged,
with no line modified and no line inserted. -/
theorem addItem_existing_spec (db : DB) (userId productId : Nat) (q : ℚ)
    (it : CartItem) (p : Product)
    (hpid : productId ≠ 0) (hq : 0 < q)
    (hit : (db.cartItemsOf userId).find? (fun i => i.product_id == productId) = some it)
    (hp : db.findProduct productId = some p) :
    (∀ s, p.stock = some s → s < it.quantity + q →
        addItem db userId productId (.fin q) = (db, .error msgNoStock))
  ∧ ((p.stock = none ∨ ∃ s, p.stock = some s ∧ it.quantity + q ≤ s) →
      (addItem db userId productId (.fin q)).2 = .ok ()
      ∧ (addItem db userId productId (.fin q)).1.cartItemsOf userId
          = (db.cartItemsOf userId).map (fun i =>
              if i.id = it.id then { i with quantity := it.quantity + q } else i)) := by
  have hne : db.cartItemsOf userId ≠ [] := by
    intro hnil
    rw [hnil] at hit
    simp at hit
  have hens : db.ensureCart userId = db :=
    ensureCart_of_cart_exists db userId (cartItemsOf_nonempty_exists db userId hne)
  constructor
  · intro s hs hlt
    unfold addItem
    simp only [JSNum.isFinite, JSNum.le, Bool.not_true, hens, hit, hp, hs]
    simp [hpid, not_le.mpr hq, hlt]
  · intro hok
    have hrun : addItem db userId productId (.fin q)
        = (db.updateCartItem userId it.id (it.quantity + q), .ok ()) := by
      unfold addItem
      rcases hok with hnone | ⟨s, hs, hle⟩
      · simp only [JSNum.isFinite, JSNum.le, Bool.not_true, hens, hit, hp, hnone]
        simp [hpid, not_le.mpr hq]
      · simp only [JSNum.isFinite, JSNum.le, Bool.not_true, hens, hit, hp, hs]
        simp [hpid, not_le.mpr hq, not_lt.mpr hle]
    rw [hrun]
    refine ⟨rfl, ?_⟩
    rw [updateCartItem_cartItemsOf, if_pos rfl]

/-- Witness for C6: adding 3 to an existing line of quantity 2 (stock 10)
yields the line quantity 5. -/
theorem addItem_existing_spec_witness :
    ((5:Nat) ≠ 0) ∧ ((0:ℚ) < 3)
  ∧ (exDB.cartItemsOf 1).find? (fun i => i.product_id == 5)
      = some { id := 20, product_id := 5, quantity := 2 }
  ∧ exDB.findProduct 5 = some { id := 5, name := "Camiseta", price := 10, stock := some 10 }
  ∧ (addItem exDB 1 5 (JSNum.fin 3)).2 = .ok ()
  ∧ (addItem exDB 1 5 (JSNum.fin 3)).1.cartItemsOf 1
      = [{ id := 20, product_id := 5, quantity := 5 }] := by
  have hfind : (exDB.cartItemsOf 1).find? (fun i => i.product_id == 5)
      = some { id := 20, product_id := 5, quantity := 2 } := by
    norm_num [exDB, DB.cartItemsOf, List.find?_cons]
  have hprod : exDB.findProduct 5
      = some { id := 5, name := "Camiseta", price := 10, stock := some 10 } := by
    norm_num [exDB, DB.findProduct, List.find?_cons]
  have h := (addItem_existing_spec exDB 1 5 3 { id := 20, product_id := 5, quantity := 2 }
      { id := 5, name := "Camiseta", price := 10, stock := some 10 }
      (by norm_num) (by norm_num) hfind hprod).2
      (Or.inr ⟨10, rfl, by norm_num⟩)
  refine ⟨by norm_num, by norm_num, hfind, hprod, h.1, ?_⟩
  rw [h.2]
  norm_num [exDB, DB.cartItemsOf, List.find?_cons]

/-- C1: the webhook handler is not idempotent.  Delivering the same
`checkout.session.completed` event for order 1 twice — the second delivery
after the first fully processed and the order is already `completed` —
leaves two `completed` Payment rows for the order instead of one: the second
delivery is not a no-op on Payment records. -/
theorem handleWebhook_second_delivery_not_noop :
    (handleWebhook wDB wEvent).2 = Except.ok ()
  ∧ ((handleWebhook wDB wEvent).1.findOrder 1).map (fun o => o.status) = some "completed"
  ∧ ((handleWebhook wDB wEvent).1.completedPayments 1).length = 1
  ∧ (handleWebhook (handleWebhook wDB wEvent).1 wEvent).2 = Except.ok ()
  ∧ ((handleWebhook (handleWebhook wDB wEvent).1 wEvent).1.completedPayments 1).length = 2
  ∧ (handleWebhook (handleWebhook wDB wEvent).1 wEvent).1.payments
      ≠ (handleWebhook wDB wEvent).1.payments := by
  refine ⟨?_, ?_, ?_, ?_, ?_, ?_⟩ <;>
    norm_num [handleWebhook, wDB, wEvent, wOrder, exDB, DB.setOrderStatus, DB.insertPayment,
      DB.setOrderTotals, DB.findOrder, DB.deleteCartOf, DB.completedPayments, toFixed2]

/-- C10: a product whose stored stock is NULL is never stock-bounded on the
cart path: `addItem` accepts any positive quantity for it (also combined with
an existing line), `updateItem` accepts any positive replacement quantity,
and the checkout revalidation loop passes every line whose product has NULL
stock (or enough stock); conversely the stock error of `addItem` /
`updateItem` can only arise for a product whose stock is non-null. -/
theorem nullStock_no_bound :
    (∀ (db : DB) (u pid : Nat) (q : ℚ) (p : Product), pid ≠ 0 → 0 < q →
        db.findProduct pid = some p → p.stock = none →
        (addItem db u pid (.fin q)).2 = .ok ())
  ∧ (∀ (db : DB) (u itemId : Nat) (q : ℚ) (it : CartItem) (p : Product), 0 < q →
        (db.cartItemsOf u).find? (fun i => i.id == itemId) = some it →
        db.findProduct it.product_id = some p → p.stock = none →
        (updateItem db u itemId (.fin q)).2 = .ok ())
  ∧ (∀ (db : DB) (lines : List CartLine),
        (∀ l ∈ lines, ∃ p, db.findProduct l.product_id = some p ∧
            (p.stock = none ∨ ∃ s, p.stock = some s ∧ l.quantity ≤ s)) →
        ∃ r, checkoutLoop db lines = .ok r)
  ∧ (∀ (db : DB) (u pid : Nat) (q : JSNum) (d : DB),
        addItem db u pid q = (d, .error msgNoStock) →
        ∃ p s, db.findProduct pid = some p ∧ p.stock = some s)
  ∧ (∀ (db : DB) (u itemId : Nat) (q : JSNum) (d : DB),
        updateItem db u itemId q = (d, .error msgNoStock) →
        ∃ it p s, ((db.ensureCart u).cartItemsOf u).find? (fun i => i.id == itemId) = some it
          ∧ db.findProduct it.product_id = some p ∧ p.stock = some s) := by
  refine ⟨?_, ?_, ?_, ?_, ?_⟩
  · intro db u pid q p hpid hq hp hnone
    unfold addItem
    have hp1 : (db.ensureCart u).findProduct pid = some p := by
      rw [ensureCart_findProduct]
      exact hp
    rcases hfound : ((db.ensureCart u).cartItemsOf u).find? (fun i => i.product_id == pid)
        with _ | ex <;>
      simp [JSNum.isFinite, JSNum.le, hpid, not_le.mpr hq, hp1, hnone, hfound]
  · intro db u itemId q it p hq hit hp hnone
    unfold updateItem
    have hit1 : ((db.ensureCart u).cartItemsOf u).find? (fun i => i.id == itemId) = some it := by
      rw [ensureCart_cartItemsOf]
      exact hit
    have hp1 : (db.ensureCart u).findProduct it.product_id = some p := by
      rw [ensureCart_findProduct]
      exact hp
    simp [JSNum.isFinite, JSNum.le, not_le.mpr hq, hit1, hp1, hnone]
  · intro db lines
    induction lines with
    | nil =>
      intro _
      exact ⟨([], 0), rfl⟩
    | cons l rest ih =>
      intro hall
      obtain ⟨p, hp, hstock⟩ := hall l (List.mem_cons_self l rest)
      obtain ⟨r, hr⟩ := ih (fun x hx => hall x (List.mem_cons_of_mem l hx))
      unfold checkoutLoop
      rcases hstock with hnone | ⟨s, hs, hle⟩
      · refine ⟨((l.product_id, l.quantity, p.price) :: r.1, p.price * l.quantity + r.2), ?_⟩
        simp only [hp, hnone, hr]
        rfl
      · refine ⟨((l.product_id, l.quantity, p.price) :: r.1, p.price * l.quantity + r.2), ?_⟩
        simp only [hp, hs, hr]
        rw [if_neg (not_lt.mpr hle)]
        rfl
  · intro db u pid q d herr
    by_cases hpid : pid = 0
    · rw [addItem_guard_fail db u pid q (Or.inl hpid)] at herr
      simp [msgBadAddInput, msgNoStock] at herr
    · rcases q with _ | _ | _ | qv
      · rw [addItem_guard_fail db u pid JSNum.nan (Or.inr (Or.inl rfl))] at herr
        simp [msgBadAddInput, msgNoStock] at herr
      · rw [addItem_guard_fail db u pid JSNum.posInf (Or.inr (Or.inl rfl))] at herr
        simp [msgBadAddInput, msgNoStock] at herr
      · rw [addItem_guard_fail db u pid JSNum.negInf (Or.inr (Or.inl rfl))] at herr
        simp [msgBadAddInput, msgNoStock] at herr
      · by_cases hq : qv ≤ 0
        · rw [addItem_guard_fail db u pid (JSNum.fin qv)
            (Or.inr (Or.inr (by simp [JSNum.le, hq])))] at herr
          simp [msgBadAddInput, msgNoStock] at herr
        · unfold addItem at herr
          rcases hfp : (db.ensureCart u).findProduct pid with _ | p
          · simp [JSNum.isFinite, JSNum.le, hpid, hq, hfp, msgNoStock] at herr
          · rcases hstock : p.stock with _ | s
            · rcases hfound : ((db.ensureCart u).cartItemsOf u).find?
                  (fun i => i.product_id == pid) with _ | ex <;>
                simp [JSNum.isFinite, JSNum.le, hpid, hq, hfp, hstock, hfound] at herr
            · refine ⟨p, s, ?_, hstock⟩
              rw [← ensureCart_findProduct db u pid]
              exact hfp
  · intro db u itemId q d herr
    rcases q with _ | _ | _ | qv
    · simp [updateItem, JSNum.isFinite] at herr
      simp [msgNoStock] at herr
    · simp [updateItem, JSNum.isFinite] at herr
      simp [msgNoStock] at herr
    · simp [updateItem, JSNum.isFinite] at herr
      simp [msgNoStock] at herr
    · by_cases hq : qv ≤ 0
      · simp [updateItem, JSNum.isFinite, JSNum.le, hq] at herr
        simp [msgNoStock] at herr
      · unfold updateItem at herr
        rcases hfound : ((db.ensureCart u).cartItemsOf u).find? (fun i => i.id == itemId)
            with _ | it
        · simp [JSNum.isFinite, JSNum.le, hq, hfound, msgNoStock] at herr
        · rcases hfp : (db.ensureCart u).findProduct it.product_id with _ | p
          · simp [JSNum.isFinite, JSNum.le, hq, hfound, hfp, msgNoStock] at herr
          · rcases hstock : p.stock with _ | s
            · simp [JSNum.isFinite, JSNum.le, hq, hfound, hfp, hstock, msgNoStock] at herr
            · refine ⟨it, p, s, hfound, ?_, hstock⟩
              rw [← ensureCart_findProduct db u it.product_id]
              exact hfp

/-- C2: `cancelOrder(orderId, userId)` on an order owned by the user fails
with the state error and changes nothing when the order's status is in
{shipped, completed, returned, cancelled, awaiting_return}; otherwise (with
every completed payment refundable at the provider) it sets the order
`cancelled`, adds every order item's quantity back onto its product's stock,
marks every completed payment `refunded`, and returns the refunded sum. -/
theorem cancelOrder_spec (f : String → Bool) (db : DB) (orderId userId : Nat) (order : Order)
    (hord : db.orders.find? (fun o => o.id == orderId && o.user_id == userId) = some order) :
    (order.status ∈ forbiddenCancel →
        cancelOrder f db orderId userId
          = (db, .error "No es posible cancelar este pedido en su estado actual"))
  ∧ (¬ order.status ∈ forbiddenCancel →
      (∀ p ∈ db.completedPayments orderId, refundAttemptOk f p = true) →
        (cancelOrder f db orderId userId).2
            = .ok (((db.completedPayments orderId).map (fun p => p.amount)).sum)
      ∧ (cancelOrder f db orderId userId).1.orders
            = db.orders.map (fun o => if o.id = orderId then { o with status := "cancelled" } else o)
      ∧ (∀ pid, (cancelOrder f db orderId userId).1.findProduct pid
            = (db.findProduct pid).map (fun p =>
                { p with stock := p.stock.map (fun s =>
                    s + sumQty (db.orderItems.filter (fun it => it.order_id == orderId)) pid) }))
      ∧ (cancelOrder f db orderId userId).1.payments
            = db.payments.map (fun q =>
                if q.id ∈ (db.completedPayments orderId).map (fun x => x.id) then
                  { q with status := "refunded" } else q)
      ∧ (∀ p ∈ db.payments, p.order_id = orderId → p.status = "completed" →
            { p with status := "refunded" } ∈ (cancelOrder f db orderId userId).1.payments)) := by
  constructor
  · intro hst
    unfold cancelOrder
    rw [hord]
    simp only [hst, if_true]
  · intro hst hall
    have h0 := cancelOrder_run f db orderId userId order hord hst
    have hC := cancelRest_completedPayments db orderId orderId
    have hfilter : (db.completedPayments orderId).filter (refundAttemptOk f)
        = db.completedPayments orderId := List.filter_eq_self.mpr hall
    have hpayeq : (cancelOrder f db orderId userId).1.payments
        = db.payments.map (fun q =>
            if q.id ∈ (db.completedPayments orderId).map (fun x => x.id) then
              { q with status := "refunded" } else q) := by
      rw [h0]
      show ((refundLoop f ((cancelRest db orderId).completedPayments orderId)
          (cancelRest db orderId) 0).1).payments = _
      rw [refundLoop_payments_eq, hC, hfilter, cancelRest_payments]
    refine ⟨?_, ?_, ?_, hpayeq, ?_⟩
    · rw [h0]
      show Except.ok ((refundLoop f ((cancelRest db orderId).completedPayments orderId)
          (cancelRest db orderId) 0).2) = _
      rw [refundLoop_amount, hC, hfilter, zero_add]
    · rw [h0]
      show ((refundLoop f ((cancelRest db orderId).completedPayments orderId)
          (cancelRest db orderId) 0).1).orders = _
      rw [refundLoop_orders, cancelRest_orders]
    · intro pid
      rw [h0]
      show ((refundLoop f ((cancelRest db orderId).completedPayments orderId)
          (cancelRest db orderId) 0).1).findProduct pid = _
      unfold DB.findProduct
      rw [refundLoop_products]
      show (cancelRest db orderId).findProduct pid = _
      rw [cancelRest_findProduct]
      rfl
    · intro p hp hporder hpstatus
      rw [hpayeq]
      have hmem : p ∈ db.completedPayments orderId := by
        unfold DB.completedPayments
        exact List.mem_filter.mpr ⟨hp, by simp [hporder, hpstatus]⟩
      have hid : p.id ∈ (db.completedPayments orderId).map (fun x => x.id) :=
        List.mem_map_of_mem _ hmem
      have hfp := List.mem_map_of_mem
        (fun q => if q.id ∈ (db.completedPayments orderId).map (fun x => x.id)
          then { q with status := "refunded" } else q) hp
      have hfp' : (if p.id ∈ (db.completedPayments orderId).map (fun x => x.id)
            then { p with status := "refunded" } else p)
          ∈ db.payments.map (fun q =>
              if q.id ∈ (db.completedPayments orderId).map (fun x => x.id)
              then { q with status := "refunded" } else q) := hfp
      rw [if_pos hid] at hfp'
      exact hfp'

/-- Witness for C2 at the spec's cancellation scenario: a `processing` order
with one completed payment of 50 and items of quantities 2 and 1 — cancel
succeeds with refundedAmount 50, restores both stocks, and the payment row is
marked refunded. -/
theorem cancelOrder_spec_witness :
    cDB.orders.find? (fun o => o.id == 1 && o.user_id == 2) = some cOrder
  ∧ (cancelOrder (fun _ => true) cDB 1 2).2 = Except.ok 50
  ∧ ((cancelOrder (fun _ => true) cDB 1 2).1.findProduct 5).map (fun p => p.stock)
      = some (some 5)
  ∧ ((cancelOrder (fun _ => true) cDB 1 2).1.findProduct 6).map (fun p => p.stock)
      = some (some 1)
  ∧ (cancelOrder (fun _ => true) cDB 1 2).1.orders = [{ cOrder with status := "cancelled" }]
  ∧ ({ cPay with status := "refunded" } : Payment)
      ∈ (cancelOrder (fun _ => true) cDB 1 2).1.payments := by
  have hord : cDB.orders.find? (fun o => o.id == 1 && o.user_id == 2) = some cOrder := by
    norm_num [cDB, cOrder, List.find?_cons]
  have hall : ∀ p ∈ cDB.completedPayments 1, refundAttemptOk (fun _ => true) p = true := by
    intro p hp
    simp only [cDB, DB.completedPayments, List.filter_cons, List.filter_nil] at hp
    simp only [show ((cPay.order_id == 1 && cPay.status == "completed")) = true from rfl,
      if_true] at hp
    rcases List.mem_cons.mp hp with h | h
    · rw [h]
      rfl
    · exact absurd h (List.not_mem_nil p)
  have h := (cancelOrder_spec (fun _ => true) cDB 1 2 cOrder hord).2
    (by simp [cOrder, forbiddenCancel]) hall
  refine ⟨hord, ?_, ?_, ?_, ?_, ?_⟩
  · rw [h.1]
    norm_num [cDB, cPay, DB.completedPayments, List.filter_cons]
  · rw [h.2.2.1 5]
    norm_num [cDB, DB.findProduct, List.find?_cons, sumQty, List.filter_cons]
  · rw [h.2.2.1 6]
    norm_num [cDB, DB.findProduct, List.find?_cons, sumQty, List.filter_cons]
  · rw [h.2.1]
    norm_num [cDB, cOrder]
  · exact h.2.2.2.2 cPay (by norm_num [cDB]) rfl rfl

/-- C4: approving a pending return request sets the associated order's status
to `awaiting_return` while leaving every Payment row untouched; refunding the
completed payments happens only when `updateOrderStatus` later moves the
order to `returned`, at which point every completed refundable payment is
marked `refunded`. -/
theorem returnApproval_defers_refund (f : String → Bool) (db : DB) (returnId : Nat)
    (ret : ReturnRequest) (hret : db.findReturn returnId = some ret)
    (hpend : ret.status = "pending")
    (hu : (db.findUser ret.user_id).isSome = true) :
    ((updateReturnStatus db returnId "approved").2 = .ok ()
     ∧ (updateReturnStatus db returnId "approved").1.payments = db.payments
     ∧ (updateReturnStatus db returnId "approved").1.orders
         = db.orders.map (fun o =>
             if o.id = ret.order_id then { o with status := "awaiting_return" } else o))
  ∧ (∀ (d : DB) (oid : Nat) (o : Order), d.findOrder oid = some o →
        (d.findUser o.user_id).isSome = true →
        (∀ p ∈ d.completedPayments oid, refundAttemptOk f p = true) →
        (updateOrderStatus f d oid "returned").2 = .ok ()
        ∧ (updateOrderStatus f d oid "returned").1.payments
            = d.payments.map (fun q =>
                if q.id ∈ (d.completedPayments oid).map (fun x => x.id) then
                  { q with status := "refunded" } else q)) := by
  constructor
  · obtain ⟨usr, husr⟩ := Option.isSome_iff_exists.mp hu
    unfold updateReturnStatus
    simp only [hret, husr]
    simp only [if_true]
    exact ⟨by trivial, by rfl, by rfl⟩
  · intro d oid o ho hu' hall
    obtain ⟨h1, h2, _⟩ := updateOrderStatus_returned f d oid o ho hu'
    refine ⟨h1, ?_⟩
    rw [h2, List.filter_eq_self.mpr hall]

/-- Witness for C4 at the spec's return scenario: approving the pending
return of the shipped, paid order moves it to `awaiting_return` with the
completed payment untouched; then `updateOrderStatus(returned)` marks it
refunded. -/
theorem returnApproval_defers_refund_witness :
    rDB.findReturn 7 = some rRet
  ∧ (updateReturnStatus rDB 7 "approved").2 = .ok ()
  ∧ (updateReturnStatus rDB 7 "approved").1.payments = rDB.payments
  ∧ (updateReturnStatus rDB 7 "approved").1.orders
      = [{ rOrder with status := "awaiting_return" }]
  ∧ (updateOrderStatus (fun _ => true) rDB 1 "returned").1.payments
      = [{ cPay with status := "refunded" }] := by
  have hret : rDB.findReturn 7 = some rRet := by
    norm_num [rDB, cDB, rRet, DB.findReturn, List.find?_cons]
  have hu : (rDB.findUser 2).isSome = true := by
    norm_num [rDB, cDB, DB.findUser, List.find?_cons]
  have h := returnApproval_defers_refund (fun _ => true) rDB 7 rRet hret rfl hu
  have ho : rDB.findOrder 1 = some rOrder := by
    norm_num [rDB, cDB, rOrder, cOrder, DB.findOrder, List.find?_cons]
  have hall : ∀ p ∈ rDB.completedPayments 1, refundAttemptOk (fun _ => true) p = true := by
    intro p hp
    simp only [rDB, cDB, DB.completedPayments, List.filter_cons, List.filter_nil] at hp
    simp only [show ((cPay.order_id == 1 && cPay.status == "completed")) = true from rfl,
      if_true] at hp
    rcases List.mem_cons.mp hp with hh | hh
    · rw [hh]
      rfl
    · exact absurd hh (List.not_mem_nil p)
  have h2 := h.2 rDB 1 rOrder ho hu hall
  refine ⟨hret, h.1.1, h.1.2.1, ?_, ?_⟩
  · rw [h.1.2.2]
    norm_num [rDB, cDB, rOrder, cOrder, rRet]
  · rw [h2.2]
    norm_num [rDB, cDB, cPay, DB.completedPayments, List.filter_cons]

/-- C8: when the provider refund call fails for a completed payment, that
payment row keeps its `completed` status (it is never marked `refunded`
without provider confirmation), and the enclosing transition — user
cancellation or the admin move to `returned` — still succeeds. -/
theorem refund_failure_spec (f : String → Bool) (db : DB) (orderId userId : Nat)
    (order : Order)
    (hord : db.orders.find? (fun o => o.id == orderId && o.user_id == userId) = some order)
    (hforb : ¬ order.status ∈ forbiddenCancel)
    (hids : db.payments.Pairwise (fun a b => a.id ≠ b.id)) :
    (∃ amt, (cancelOrder f db orderId userId).2 = Except.ok amt)
  ∧ (∀ p ∈ db.payments, p.order_id = orderId → p.status = "completed" →
        refundAttemptOk f p = false →
        p ∈ (cancelOrder f db orderId userId).1.payments)
  ∧ (∀ (o : Order), db.findOrder orderId = some o →
        (db.findUser o.user_id).isSome = true →
        (updateOrderStatus f db orderId "returned").2 = Except.ok ()
      ∧ ∀ p ∈ db.payments, p.order_id = orderId → p.status = "completed" →
          refundAttemptOk f p = false →
          p ∈ (updateOrderStatus f db orderId "returned").1.payments) := by
  have h0 := cancelOrder_run f db orderId userId order hord hforb
  have hC := cancelRest_completedPayments db orderId orderId
  have hkey : ∀ p ∈ db.payments, p.order_id = orderId → p.status = "completed" →
      refundAttemptOk f p = false →
      p.id ∉ ((db.completedPayments orderId).filter (refundAttemptOk f)).map (fun x => x.id) := by
    intro p hp hporder hpstatus hfail hmem
    obtain ⟨q, hq, hqid⟩ := List.mem_map.mp hmem
    have hq1 : q ∈ db.completedPayments orderId := (List.mem_filter.mp hq).1
    have hq2 : refundAttemptOk f q = true := (List.mem_filter.mp hq).2
    have hq3 : q ∈ db.payments := by
      unfold DB.completedPayments at hq1
      exact (List.mem_filter.mp hq1).1
    have hqp : q = p := pairwise_payment_id_inj hids hq3 hp hqid
    rw [hqp] at hq2
    simp [hq2] at hfail
  refine ⟨?_, ?_, ?_⟩
  · exact ⟨_, by rw [h0]⟩
  · intro p hp hporder hpstatus hfail
    have hpayeq : (cancelOrder f db orderId userId).1.payments
        = db.payments.map (fun q =>
            if q.id ∈ ((db.completedPayments orderId).filter (refundAttemptOk f)).map (fun x => x.id)
            then { q with status := "refunded" } else q) := by
      rw [h0]
      show ((refundLoop f ((cancelRest db orderId).completedPayments orderId)
          (cancelRest db orderId) 0).1).payments = _
      rw [refundLoop_payments_eq, hC, cancelRest_payments]
    rw [hpayeq]
    have hfp := List.mem_map_of_mem
      (fun q => if q.id ∈ ((db.completedPayments orderId).filter (refundAttemptOk f)).map (fun x => x.id)
        then { q with status := "refunded" } else q) hp
    have hfp' : (if p.id ∈ ((db.completedPayments orderId).filter (refundAttemptOk f)).map (fun x => x.id)
          then { p with status := "refunded" } else p)
        ∈ db.payments.map (fun q =>
            if q.id ∈ ((db.completedPayments orderId).filter (refundAttemptOk f)).map (fun x => x.id)
            then { q with status := "refunded" } else q) := hfp
    rw [if_neg (hkey p hp hporder hpstatus hfail)] at hfp'
    exact hfp'
  · intro o ho hu
    obtain ⟨h1, h2, _⟩ := updateOrderStatus_returned f db orderId o ho hu
    refine ⟨h1, ?_⟩
    intro p hp hporder hpstatus hfail
    rw [h2]
    have hfp := List.mem_map_of_mem
      (fun q => if q.id ∈ ((db.completedPayments orderId).filter (refundAttemptOk f)).map (fun x => x.id)
        then { q with status := "refunded" } else q) hp
    have hfp' : (if p.id ∈ ((db.completedPayments orderId).filter (refundAttemptOk f)).map (fun x => x.id)
          then { p with status := "refunded" } else p)
        ∈ db.payments.map (fun q =>
            if q.id ∈ ((db.completedPayments orderId).filter (refundAttemptOk f)).map (fun x => x.id)
            then { q with status := "refunded" } else q) := hfp
    rw [if_neg (hkey p hp hporder hpstatus hfail)] at hfp'
    exact hfp'

/-- Witness for C8 on the cancellation scenario with a provider that rejects
every refund: the cancel call still succeeds (refunding 0) and the completed
payment row survives unchanged. -/
theorem refund_failure_spec_witness :
    (cancelOrder (fun _ => false) cDB 1 2).2 = Except.ok 0
  ∧ cPay ∈ (cancelOrder (fun _ => false) cDB 1 2).1.payments := by
  have hord : cDB.orders.find? (fun o => o.id == 1 && o.user_id == 2) = some cOrder := by
    norm_num [cDB, cOrder, List.find?_cons]
  have h := refund_failure_spec (fun _ => false) cDB 1 2 cOrder hord
    (by simp [cOrder, forbiddenCancel]) (by norm_num [cDB])
  have hmem := h.2.1 cPay (by norm_num [cDB]) rfl rfl (by rfl)
  refine ⟨?_, hmem⟩
  have h0 := cancelOrder_run (fun _ => false) cDB 1 2 cOrder hord
    (by simp [cOrder, forbiddenCancel])
  rw [h0]
  show Except.ok ((refundLoop (fun _ => false)
      ((cancelRest cDB 1).completedPayments 1) (cancelRest cDB 1) 0).2) = _
  rw [refundLoop_amount, cancelRest_completedPayments, zero_add]
  norm_num [cDB, cPay, DB.completedPayments, List.filter_cons, refundAttemptOk]

/-- Witness for C10: adding quantity 7 of a NULL-stock product to a cart that
already holds 2 of it succeeds (no stock bound is enforced). -/
theorem nullStock_no_bound_witness :
    ((5:Nat) ≠ 0) ∧ ((0:ℚ) < 7)
  ∧ nsDB.findProduct 5 = some { id := 5, name := "Camiseta", price := 10, stock := none }
  ∧ (addItem nsDB 1 5 (JSNum.fin 7)).2 = .ok () := by
  have hp : nsDB.findProduct 5 = some { id := 5, name := "Camiseta", price := 10, stock := none } := by
    norm_num [nsDB, exDB, DB.findProduct, List.find?_cons]
  exact ⟨by norm_num, by norm_num, hp,
    nullStock_no_bound.1 nsDB 1 5 7 { id := 5, name := "Camiseta", price := 10, stock := none }
      (by norm_num) (by norm_num) hp rfl⟩

end Shop
